import Mathlib

/-!
Verification development for the talkitdoit tidi-yt-demo-1 repository
(`chat_interface.py`, `idea_code.py`, `pulumi_co_pilot.py`).

The Python code is shallowly embedded: external effects (subprocess runs,
GitHub API, HTTP, the filesystem, `json.loads`) are supplied as oracle
fields of environment structures, and every Python `try`/`except` block is
embedded explicitly so that exception propagation is visible in the types
(`Except PyErr`).  State mutation is embedded by explicit state passing;
an exception value carries the state at the raise point, matching the fact
that Python exceptions do not roll back prior mutations.
-/

/-- A parsed JSON value, the result of a successful Python `json.loads`.
Numbers are embedded as integers; no claim touches fractional numeric
fields, and floats are otherwise not modelled. -/
inductive Json where
  | null : Json
  | bool : Bool → Json
  | num : Int → Json
  | str : String → Json
  | arr : List Json → Json
  | obj : List (String × Json) → Json

/-- A modelled Python exception.  `jsonDecode` stands for
`json.JSONDecodeError` (the only exception class the sources catch
selectively); every other exception is `other`, carrying its `str(e)`
text.  Both are caught by `except Exception`. -/
inductive PyErr where
  | jsonDecode : String → PyErr
  | other : String → PyErr

/-- The `str(e)` text of a modelled exception. -/
def PyErr.msg : PyErr → String
  | .jsonDecode m => m
  | .other m => m

/-- Key lookup in the association list of a JSON object (Python dict
lookup; `json.loads` produces dicts with unique keys). -/
def jsonLookup : List (String × Json) → String → Option Json
  | [], _ => none
  | (k, v) :: rest, key => if k = key then some v else jsonLookup rest key

/-- Total `dict.get(key)` on a JSON value: `none` when the key is absent
or the value is not an object.  Used only where the value is already
known to be a dict (see `pyGet` for the raising version). -/
def jsonGet : Json → String → Option Json
  | .obj kvs, key => jsonLookup kvs key
  | _, _ => none

/-- Python `dict.get(key, default)` on a value known to be a dict. -/
def jsonGetD (j : Json) (key : String) (dflt : Json) : Json :=
  (jsonGet j key).getD dflt

/-- The Python type name of a decoded JSON value, as it appears in
`AttributeError` / `TypeError` messages. -/
def pyTypeName : Json → String
  | .null => "NoneType"
  | .bool _ => "bool"
  | .num _ => "int"
  | .str _ => "str"
  | .arr _ => "list"
  | .obj _ => "dict"

/-- Python `value.get(key)`: succeeds on dicts, raises `AttributeError`
on anything else (e.g. `json.loads` returned a list). -/
def pyGet (j : Json) (key : String) : Except PyErr (Option Json) :=
  match j with
  | .obj kvs => .ok (jsonLookup kvs key)
  | other => .error (.other ("\x27" ++ pyTypeName other ++ "\x27 object has no attribute \x27get\x27"))

/-- Python `value[key]` subscripting: a dict lookup raising `KeyError`
(whose `str` is the quoted key) when the key is absent, and `TypeError`
on non-dicts.  The `TypeError` text is an approximation of CPython's. -/
def pyIndex (j : Json) (key : String) : Except PyErr Json :=
  match j with
  | .obj kvs =>
    match jsonLookup kvs key with
    | some v => .ok v
    | none => .error (.other ("\x27" ++ key ++ "\x27"))
  | other => .error (.other (pyTypeName other ++ " indices must not be str"))

/-- Python `value.get(key, default) == "expected"` style comparison: a
string comparison that is false when the field is absent or not a
string. -/
def optJsonIsStr (o : Option Json) (s : String) : Bool :=
  match o with
  | some (.str t) => t == s
  | _ => false

/-- Extraction of a string field with a default, fused with the
`TypeError` that Python raises when a non-`str` field value later
reaches `str.join` or `file.write` (the only uses in the sources).  The
error text approximates CPython's. -/
def pyGetStrField (j : Json) (key dflt : String) : Except PyErr String :=
  match jsonGet j key with
  | none => .ok dflt
  | some (.str s) => .ok s
  | some v => .error (.other ("expected str instance, " ++ pyTypeName v ++ " found"))

/-- Python `for x in value` iteration: lists iterate their elements,
strings iterate their characters, dicts iterate their keys, and every
other value raises `TypeError`. -/
def pyIter : Json → Except PyErr (List Json)
  | .arr xs => .ok xs
  | .str s => .ok (s.data.map (fun c => Json.str (String.singleton c)))
  | .obj kvs => .ok (kvs.map (fun kv => Json.str kv.fst))
  | other => .error (.other ("\x27" ++ pyTypeName other ++ "\x27 object is not iterable"))

mutual

/-- Python `str()` of a decoded JSON value (used by f-string
interpolation). -/
def pyStr : Json → String
  | .null => "None"
  | .bool true => "True"
  | .bool false => "False"
  | .num n => toString n
  | .str s => s
  | .arr xs => "[" ++ pyReprList xs ++ "]"
  | .obj kvs => "\x7b" ++ pyReprKvs kvs ++ "\x7d"

/-- Python `repr()` of a decoded JSON value.  Escaping of quotes inside
strings is not modelled (no claim exercises it). -/
def pyRepr : Json → String
  | .null => "None"
  | .bool true => "True"
  | .bool false => "False"
  | .num n => toString n
  | .str s => "\x27" ++ s ++ "\x27"
  | .arr xs => "[" ++ pyReprList xs ++ "]"
  | .obj kvs => "\x7b" ++ pyReprKvs kvs ++ "\x7d"

/-- Comma-separated `repr` of list elements. -/
def pyReprList : List Json → String
  | [] => ""
  | [x] => pyRepr x
  | x :: xs => pyRepr x ++ ", " ++ pyReprList xs

/-- Comma-separated `repr` of dict entries. -/
def pyReprKvs : List (String × Json) → String
  | [] => ""
  | [(k, v)] => "\x27" ++ k ++ "\x27: " ++ pyRepr v
  | (k, v) :: rest => "\x27" ++ k ++ "\x27: " ++ pyRepr v ++ ", " ++ pyReprKvs rest

end

/-- Lower-case hexadecimal digit. -/
def hexDigit (n : Nat) : Char :=
  if n < 10 then Char.ofNat (48 + n) else Char.ofNat (87 + n)

/-- Four-digit hexadecimal rendering used by `\u` escapes. -/
def hex4 (n : Nat) : String :=
  String.mk [hexDigit (n / 4096 % 16), hexDigit (n / 256 % 16), hexDigit (n / 16 % 16), hexDigit (n % 16)]

/-- Escaping of one character by Python `json.dumps` with its default
`ensure_ascii=True`: printable ASCII is kept, `"` and `\` and control
characters are escaped, everything non-ASCII becomes `\uXXXX` (with
surrogate pairs beyond the BMP). -/
def jsonEscapeChar (c : Char) : String :=
  if c.toNat = 34 then "\\\""
  else if c.toNat = 92 then "\\\\"
  else if c.toNat = 10 then "\\n"
  else if c.toNat = 9 then "\\t"
  else if c.toNat = 13 then "\\r"
  else if c.toNat = 8 then "\\b"
  else if c.toNat = 12 then "\\f"
  else if c.toNat < 32 then "\\u" ++ hex4 c.toNat
  else if c.toNat < 127 then String.singleton c
  else if c.toNat < 65536 then "\\u" ++ hex4 c.toNat
  else
    "\\u" ++ hex4 (55296 + (c.toNat - 65536) / 1024) ++ "\\u" ++ hex4 (56320 + (c.toNat - 65536) % 1024)

/-- Python `json.dumps` string escaping. -/
def jsonEscape (s : String) : String :=
  String.join (s.data.map jsonEscapeChar)

mutual

/-- Python `json.dumps` with default separators. -/
def jsonDumps : Json → String
  | .null => "null"
  | .bool true => "true"
  | .bool false => "false"
  | .num n => toString n
  | .str s => "\"" ++ jsonEscape s ++ "\""
  | .arr xs => "[" ++ jsonDumpsList xs ++ "]"
  | .obj kvs => "\x7b" ++ jsonDumpsKvs kvs ++ "\x7d"

/-- Comma-separated dump of list elements. -/
def jsonDumpsList : List Json → String
  | [] => ""
  | [x] => jsonDumps x
  | x :: xs => jsonDumps x ++ ", " ++ jsonDumpsList xs

/-- Comma-separated dump of dict entries. -/
def jsonDumpsKvs : List (String × Json) → String
  | [] => ""
  | [(k, v)] => "\"" ++ jsonEscape k ++ "\": " ++ jsonDumps v
  | (k, v) :: rest => "\"" ++ jsonEscape k ++ "\": " ++ jsonDumps v ++ ", " ++ jsonDumpsKvs rest

end

/-- The two-field error object `{"status": "error", "message": msg}` that
every agent builds on failure. -/
def errObj (m : String) : Json :=
  Json.obj [("status", Json.str "error"), ("message", Json.str m)]

/-- Whether the second character list is an initial segment of the
first. -/
def charsStartWith : List Char → List Char → Bool
  | _, [] => true
  | [], _ :: _ => false
  | c :: cs, p :: ps => c == p && charsStartWith cs ps

/-- Whether the second character list occurs contiguously anywhere in
the first. -/
def charsContain : List Char → List Char → Bool
  | [], pat => pat.isEmpty
  | c :: cs, pat => charsStartWith (c :: cs) pat || charsContain cs pat

/-- Python `pattern in s` substring test. -/
def strContains (s pat : String) : Bool :=
  charsContain s.data pat.data

/-- Python `str.lower` on one character (ASCII; the sources only lower
ASCII command words and project names). -/
def pyLowerChar (c : Char) : Char :=
  if 65 ≤ c.toNat && c.toNat ≤ 90 then Char.ofNat (c.toNat + 32) else c

/-- Python `str.lower` (ASCII model). -/
def pyLower (s : String) : String :=
  String.mk (s.data.map pyLowerChar)

/-- Python whitespace as recognised by `str.strip()`. -/
def pyIsSpace (c : Char) : Bool :=
  c.toNat = 32 || c.toNat = 9 || c.toNat = 10 || c.toNat = 13 || c.toNat = 11 || c.toNat = 12

/-- Drops leading Python whitespace from a character list. -/
def dropSpaces : List Char → List Char
  | [] => []
  | c :: cs => if pyIsSpace c then dropSpaces cs else c :: cs

/-- Python `str.strip()`: leading and trailing whitespace removed. -/
def pyStrip (s : String) : String :=
  String.mk ((dropSpaces (dropSpaces s.data.reverse).reverse))

/-- The affirmative test of `chat_interface.py` line 100:
`any(word in message_lower for word in ["yes", "sure", "okay"])`. -/
def affirmative (messageLower : String) : Bool :=
  strContains messageLower "yes" || strContains messageLower "sure" || strContains messageLower "okay"

/-- Project-name normalisation of `chat_interface.py` line 62:
`user_message.strip().replace(" ", "-").lower()` (the replace pattern is
the single space character, so it is a character map). -/
def deriveProjectName (userMessage : String) : String :=
  pyLower (String.mk ((pyStrip userMessage).data.map
    (fun c => if c.toNat = 32 then Char.ofNat 45 else c)))

/-- Python truthiness of `self.current_project : Optional[str]`: `None`
and the empty string are falsy. -/
def truthyProject : Option String → Bool
  | none => false
  | some s => s != ""

/-- Python `str()` of an `Optional[str]` under f-string interpolation
(`None` renders as `"None"`). -/
def pyStrOpt : Option String → String
  | none => "None"
  | some s => s

/-- Python `message.split()[-1]`: `none` models the `IndexError` on a
whitespace-only string. -/
def pySplitLast (s : String) : Option String :=
  ((s.split Char.isWhitespace).filter (fun t => t != "")).getLast?

/-- The application descriptor of `idea_code.py` (dataclass
`ApplicationSpec`).  The `name` field is declared `str` in the source but
the only constructor, `chat_interface.py`, passes `self.current_project`,
which may be `None`; the dataclass performs no runtime check, so the
field is embedded as `Option String`. -/
structure ApplicationSpec where
  name : Option String
  description : String
  framework : String
  target_framework : String
  container_port : Int

/-- The result of one `subprocess.run(..., capture_output=True)`. -/
structure RunResult where
  returncode : Int
  stdout : String
  stderr : String

/-- The command loop of `DeploymentAgent.deploy` / `destroy` and
`PlatformOrchestrator.create_new_project`: run each command in order; on a
non-zero return code raise
`Exception(f"Command failed: {cmd}\nError: {result.stderr}")` and stop.
Returns the commands actually executed and the raised message, if any. -/
def runLoopRaise (run : String → RunResult) : List String → List String × Option String
  | [] => ([], none)
  | cmd :: rest =>
    let r := run cmd
    if r.returncode == 0 then
      let res := runLoopRaise run rest
      (cmd :: res.fst, res.snd)
    else
      ([cmd], some ("Command failed: " ++ cmd ++ "\nError: " ++ r.stderr))

/-- The `str()` of `subprocess.CalledProcessError` raised by
`subprocess.run(..., check=True)`.  It reports the command and exit
status only; the captured stderr is stored on the exception object but
does not appear in the text.  (The named-signal rendering for negative
return codes is simplified to the unknown-signal form.) -/
def calledProcessErrorStr (cmd : String) (rc : Int) : String :=
  if rc < 0 then
    "Command \x27" ++ cmd ++ "\x27 died with unknown signal " ++ toString (-rc) ++ "."
  else
    "Command \x27" ++ cmd ++ "\x27 returned non-zero exit status " ++ toString rc ++ "."

/-- The command loop of `GitOpsAgent.commit_code`, which uses
`subprocess.run(..., check=True)`: a non-zero return code raises
`CalledProcessError` and stops the loop. -/
def runLoopCheck (run : String → RunResult) : List String → List String × Option String
  | [] => ([], none)
  | cmd :: rest =>
    let r := run cmd
    if r.returncode == 0 then
      let res := runLoopCheck run rest
      (cmd :: res.fst, res.snd)
    else
      ([cmd], some (calledProcessErrorStr cmd r.returncode))

/-- Oracle environment for `DeploymentAgent.deploy` / `destroy`:
`json.loads` (`parse`), `subprocess.run` keyed by command string (`run`;
the `cwd` argument is not modelled separately because each call site uses
a fixed working directory and distinct command strings), and
`Path.exists`.  A launch failure from a missing `cwd` would raise and be
caught by the same catch-all handler; it is not modelled separately. -/
structure DeployEnv where
  parse : String → Except String Json
  run : String → RunResult
  pathExists : String → Bool

/-- The fixed deployment command list of `DeploymentAgent.deploy`
(lines 231-237). -/
def deployCommands (projectName : String) : List String :=
  ["pulumi login",
   "go mod tidy",
   "pulumi stack select talkitdoit-org/" ++ projectName ++ "/dev",
   "pulumi config set azure-native:location eastus",
   "pulumi up --yes"]

/-- The fixed destruction command list of `DeploymentAgent.destroy`
(lines 302-306). -/
def destroyCommands (projectName : String) : List String :=
  ["pulumi login",
   "pulumi stack select talkitdoit-org/" ++ projectName ++ "/dev",
   "pulumi destroy --yes"]

/-- Lines 214-217 / 291-294: the four `azure_creds[...]` lookups, each of
which can raise `KeyError` (or `TypeError` on a non-dict).  The
`os.environ` writes themselves are effect-free in this model; nothing in
the embedded claims reads them back. -/
def checkAzureCreds (creds : Json) : Except PyErr Unit :=
  match pyIndex creds "clientId" with
  | .error e => .error e
  | .ok _ =>
    match pyIndex creds "clientSecret" with
    | .error e => .error e
    | .ok _ =>
      match pyIndex creds "tenantId" with
      | .error e => .error e
      | .ok _ =>
        match pyIndex creds "subscriptionId" with
        | .error e => .error e
        | .ok _ => .ok ()

/-- Body of the `try` block of `DeploymentAgent.deploy` (lines 211-273).
Returns the produced JSON value (the source serialises it with
`json.dumps`; serialisation is applied by the caller via `jsonDumps`)
paired with the commands executed. -/
def deployBody (env : DeployEnv) (azureCredentials _pulumiToken : String)
    (ctxProjectName : Option String) : Except PyErr Json × List String :=
  match env.parse azureCredentials with
  | .error m => (.error (.jsonDecode m), [])
  | .ok creds =>
    match checkAzureCreds creds with
    | .error e => (.error e, [])
    | .ok _ =>
      match ctxProjectName with
      | none => (.error (.other "No project name specified"), [])
      | some projectName =>
        if projectName = "" then
          (.error (.other "No project name specified"), [])
        else if env.pathExists projectName = false then
          (.error (.other ("Project directory " ++ projectName ++ " does not exist")), [])
        else
          let res := runLoopRaise env.run (deployCommands projectName)
          match res.snd with
          | some m => (.error (.other m), res.fst)
          | none =>
            let outR := env.run "pulumi stack output --json"
            let executed := res.fst ++ ["pulumi stack output --json"]
            if outR.returncode == 0 then
              match env.parse outR.stdout with
              | .error m => (.error (.jsonDecode m), executed)
              | .ok outputs =>
                (.ok (Json.obj [("status", Json.str "success"),
                                ("message", Json.str "Deployment completed successfully"),
                                ("outputs", outputs)]), executed)
            else
              (.ok (Json.obj [("status", Json.str "success"),
                              ("message", Json.str "Deployment completed successfully, but couldn\x27t fetch URLs")]), executed)

/-- `DeploymentAgent.deploy`: the body wrapped in the catch-all handler
(lines 275-279) that converts every exception into
`{"status": "error", "message": f"Deployment failed: {e}"}`. -/
def DeploymentAgent.deploy (env : DeployEnv) (azureCredentials pulumiToken : String)
    (ctxProjectName : Option String) : Json × List String :=
  match deployBody env azureCredentials pulumiToken ctxProjectName with
  | (.ok j, tr) => (j, tr)
  | (.error e, tr) => (errObj ("Deployment failed: " ++ e.msg), tr)

/-- Body of the `try` block of `DeploymentAgent.destroy` (lines 288-324).
Unlike `deploy` there is no truthiness or existence check on the project
name. -/
def destroyBody (env : DeployEnv) (azureCredentials _pulumiToken : String)
    (projectName : String) : Except PyErr Json × List String :=
  match env.parse azureCredentials with
  | .error m => (.error (.jsonDecode m), [])
  | .ok creds =>
    match checkAzureCreds creds with
    | .error e => (.error e, [])
    | .ok _ =>
      let res := runLoopRaise env.run (destroyCommands projectName)
      match res.snd with
      | some m => (.error (.other m), res.fst)
      | none =>
        (.ok (Json.obj [("status", Json.str "success"),
                        ("message", Json.str "Application successfully destroyed")]), res.fst)

/-- `DeploymentAgent.destroy`: the body wrapped in the catch-all handler
(lines 326-330). -/
def DeploymentAgent.destroy (env : DeployEnv) (azureCredentials pulumiToken : String)
    (projectName : String) : Json × List String :=
  match destroyBody env azureCredentials pulumiToken projectName with
  | (.ok j, tr) => (j, tr)
  | (.error e, tr) => (errObj ("Destroy failed: " ++ e.msg), tr)

/-- `DeploymentAgent.process` (lines 191-201): dispatch on the message
text; `message.split()[-1]` raises `IndexError` on a whitespace-only
message (never produced by the callers). -/
def DeploymentAgent.process (env : DeployEnv) (azureCredentials pulumiToken : String)
    (message : String) : Except PyErr (Json × List String) :=
  if (pyLower message).startsWith "destroy" then
    match pySplitLast message with
    | none => .error (.other "list index out of range")
    | some p => .ok (DeploymentAgent.destroy env azureCredentials pulumiToken p)
  else
    match pySplitLast message with
    | none => .error (.other "list index out of range")
    | some p => .ok (DeploymentAgent.deploy env azureCredentials pulumiToken (some p))

/-- A GitHub repository as used by `GitOpsAgent`. -/
structure GitRepo where
  clone_url : String
  html_url : String

/-- Oracle environment for `GitOpsAgent`: repository lookup / creation
(raising on API failure, with `str(e)` as the error) and the
`subprocess.run` oracle for the git commands (run in the fixed
`talkitdoit-demo-app` working directory). -/
structure GitEnv where
  getRepo : Option String → Except String GitRepo
  createRepo : Option String → Except String GitRepo
  run : String → RunResult

/-- The fixed git command list of `GitOpsAgent.commit_code`
(lines 156-163). -/
def gitCommands (cloneUrl : String) : List String :=
  ["git init",
   "git add .",
   "git commit -m \"Initial commit\"",
   "git remote add origin " ++ cloneUrl,
   "git branch -M main",
   "git push -u origin main"]

/-- `GitOpsAgent.create_repository` (lines 137-148). -/
def GitOpsAgent.create_repository (env : GitEnv) (spec : ApplicationSpec) : String :=
  match env.createRepo spec.name with
  | .ok repo => "Created repository: " ++ repo.html_url
  | .error e => "Failed to create repository: " ++ e

/-- `GitOpsAgent.commit_code` (lines 150-179): look up the repository,
run the git commands with `check=True`, and convert any exception into
`f"Failed to commit code: {str(e)}"`.  Returns the reply string and the
git commands actually executed. -/
def GitOpsAgent.commit_code (env : GitEnv) (name : Option String) : String × List String :=
  match env.getRepo name with
  | .error e => ("Failed to commit code: " ++ e, [])
  | .ok repo =>
    let res := runLoopCheck env.run (gitCommands repo.clone_url)
    match res.snd with
    | some m => ("Failed to commit code: " ++ m, res.fst)
    | none => ("Code committed to repository: " ++ repo.html_url, res.fst)

/-- Oracle environment for `PlatformOrchestrator.create_new_project`:
the `subprocess.run` oracle, plus the filesystem steps before
(`os.makedirs`, line 456) and after (the `www` directory and
`index.html` write, lines 477-538) the command loop, each of which can
raise. -/
structure CreateEnv where
  run : String → RunResult
  makedirsResult : Except String Unit
  writeResult : Except String Unit

/-- The single scaffold command of `PlatformOrchestrator.create_new_project`
(line 460). -/
def pulumiNewCmd (template projectName : String) : String :=
  "pulumi new " ++ template ++ " -s talkitdoit-org/" ++ projectName ++ "/dev --yes --force"

/-- `PlatformOrchestrator.create_new_project` (lines 453-542): any
exception in the body is re-raised as
`Exception(f"Failed to create project: {str(e)}")`. -/
def PlatformOrchestrator.create_new_project (env : CreateEnv) (template projectName : String) :
    Except String String × List String :=
  match env.makedirsResult with
  | .error e => (.error ("Failed to create project: " ++ e), [])
  | .ok _ =>
    let res := runLoopRaise env.run [pulumiNewCmd template projectName]
    match res.snd with
    | some m => (.error ("Failed to create project: " ++ m), res.fst)
    | none =>
      match env.writeResult with
      | .error e => (.error ("Failed to create project: " ++ e), res.fst)
      | .ok _ => (.ok "Project created successfully with custom dark mode template", res.fst)

/-- The message-scanning loop of `PulumiCopilotAgent.analyze_code`
(lines 414-424): find the first message whose `role` is `"assistant"`
and whose `kind` is `"response"` and return the success object with its
`content`; if none matches, return the no-analysis error object.
`message.get` raises `AttributeError` on non-dict entries, which escapes
to the outer catch-all. -/
def analyzeLoop : List Json → Except PyErr Json
  | [] => .ok (Json.obj [("status", Json.str "error"),
                         ("message", Json.str "No analysis found in response")])
  | msg :: rest =>
    match pyGet msg "role" with
    | .error e => .error e
    | .ok role =>
      if optJsonIsStr role "assistant" then
        match pyGet msg "kind" with
        | .error e => .error e
        | .ok kind =>
          if optJsonIsStr kind "response" then
            .ok (Json.obj [("status", Json.str "success"),
                           ("analysis", jsonGetD msg "content" (Json.str "No analysis provided"))])
          else analyzeLoop rest
      else analyzeLoop rest

/-- The parsed-response handling of `PulumiCopilotAgent.analyze_code`:
`result.get("messages", [])` followed by the scanning loop. -/
def analyzeBody (result : Json) : Except PyErr Json :=
  match pyGet result "messages" with
  | .error e => .error e
  | .ok opt =>
    match pyIter (opt.getD (Json.arr [])) with
    | .error e => .error e
    | .ok msgs => analyzeLoop msgs

/-- Oracle environment for `PulumiCopilotAgent.analyze_code`: existence
of `main.go`, the file read, the HTTP POST returning the response text
(raising on a network exception), and `json.loads`. -/
structure CopilotEnv where
  mainGoExists : Bool
  readResult : Except String String
  postResult : Except String String
  parse : String → Except String Json

/-- `PulumiCopilotAgent.analyze_code` (lines 378-435): the inner
`except json.JSONDecodeError` produces the parse-failure error object
with the first 200 characters of the response text; every other
exception reaches the outer handler producing
`f"Failed to analyze code: {str(e)}"`. -/
def PulumiCopilotAgent.analyze_code (env : CopilotEnv) (projectPath : String) : Json :=
  if env.mainGoExists = false then
    errObj ("main.go not found in " ++ projectPath)
  else
    match env.readResult with
    | .error e => errObj ("Failed to analyze code: " ++ e)
    | .ok _ =>
      match env.postResult with
      | .error e => errObj ("Failed to analyze code: " ++ e)
      | .ok responseText =>
        match env.parse responseText with
        | .error _ => errObj ("Failed to parse response: " ++ responseText.take 200 ++ "...")
        | .ok result =>
          match analyzeBody result with
          | .ok j => j
          | .error e => errObj ("Failed to analyze code: " ++ e.msg)

/-- Oracle environment for `PlatformOrchestrator.process_request`. -/
structure OrchEnv where
  denv : DeployEnv
  genv : GitEnv
  azureCredentials : String
  pulumiToken : String

/-- `PlatformOrchestrator.process_request` (lines 544-559).  On the
deploy path the results of `create_repository` and `commit_code` are
awaited and DISCARDED (lines 554-555); a git failure therefore neither
aborts the sequence nor appears in the responses.  Returns the response
strings and the subprocess commands run by the deployment agent. -/
def PlatformOrchestrator.process_request (env : OrchEnv) (spec : ApplicationSpec)
    (action : String) : Except PyErr (List String × List String) :=
  if action = "destroy" then
    match DeploymentAgent.process env.denv env.azureCredentials env.pulumiToken
        ("Destroy " ++ pyStrOpt spec.name) with
    | .error e => .error e
    | .ok (j, cmds) => .ok ([jsonDumps j], cmds)
  else
    let _r1 := GitOpsAgent.create_repository env.genv spec
    let _r2 := GitOpsAgent.commit_code env.genv spec.name
    match DeploymentAgent.process env.denv env.azureCredentials env.pulumiToken
        ("Deploy " ++ pyStrOpt spec.name) with
    | .error e => .error e
    | .ok (j, cmds) => .ok (["Using newly created Pulumi project", jsonDumps j], cmds)

/-- The mutable conversation state of `AIChatInterface` (constructor,
lines 23-30).  The `analysis` directory creation is an external effect
with no bearing on any claim and is not modelled. -/
structure ChatState where
  currentProject : Option String
  awaitingProjectName : Bool
  awaitingDeploymentConfirmation : Bool
  conversationHistory : List String

/-- The freshly constructed `AIChatInterface` state. -/
def initialChatState : ChatState :=
  ⟨none, false, false, []⟩

/-- One outward call made by `process_message` through the orchestrator
or the filesystem, recorded in order. -/
inductive ExtCall where
  | createNewProject : String → String → ExtCall
  | copilotCommunicate : String → ExtCall
  | saveAnalysis : String → String → ExtCall
  | processRequest : Option String → String → ExtCall

/-- Whether a recorded call is `orchestrator.process_request(..., "deploy")`. -/
def ExtCall.isDeployRequest : ExtCall → Bool
  | .processRequest _ "deploy" => true
  | _ => false

/-- Number of deployment command sequences triggered in a call trace. -/
def countDeployRequests (cs : List ExtCall) : Nat :=
  (cs.filter ExtCall.isDeployRequest).length

/-- Oracle environment for one `process_message` call: the outcome of
`orchestrator.create_new_project` (which re-raises its failures), the
text returned by `copilot.communicate` (total: `analyze_code` catches
everything), the `json.loads` oracle shared by every parse in the
method, the outcome of the `save_analysis_to_file` write, and the
outcome of `orchestrator.process_request` (allowed to raise, although
the source orchestrator cannot). -/
structure ChatEnv where
  createResult : Except String String
  analyzeResponse : String
  parse : String → Except String Json
  saveResult : Except String Unit
  processRequestResult : Except String (List String)

/-- Intermediate result of one dispatch branch: either a normal triple
(response text, state, calls so far) or a raised exception carrying the
state and calls at the raise point. -/
def ChatStep : Type :=
  Except (PyErr × ChatState × List ExtCall) (String × ChatState × List ExtCall)

/-- Embeds `except Exception as e` around a branch body: every modelled
exception is caught and mapped to a response via `handler` applied to
`str(e)`, keeping the state and calls from the raise point. -/
def catchExcChat (body : ChatStep) (handler : String → String) : ChatStep :=
  match body with
  | .error (e, st, cs) => .ok (handler e.msg, st, cs)
  | .ok r => .ok r

/-- Embeds `except json.JSONDecodeError` around a (sub-)body: only
decode errors are caught; every other exception keeps propagating. -/
def catchJsonDecodeChat (body : ChatStep)
    (handler : ChatState → List ExtCall → String × ChatState × List ExtCall) : ChatStep :=
  match body with
  | .error (.jsonDecode _, st, cs) => .ok (handler st cs)
  | other => other

/-- The awaiting-project-name branch of `process_message` (lines 60-97),
starting from the state `s1` in which the flag has already been cleared
(line 61).  The body of the `try` at line 63; the caller wraps it in
`catchExcChat`. -/
def createBranchBody (env : ChatEnv) (s1 : ChatState) (projectName : String) : ChatStep :=
  let calls0 := [ExtCall.createNewProject "static-website-azure-go" projectName]
  match env.createResult with
  | .error e => .error (.other e, s1, calls0)
  | .ok _creation =>
    let s2 : ChatState := { s1 with currentProject := some projectName }
    let calls1 := calls0 ++ [ExtCall.copilotCommunicate ("Analyze " ++ projectName)]
    catchJsonDecodeChat
      (match env.parse env.analyzeResponse with
       | .error m => .error (.jsonDecode m, s2, calls1)
       | .ok data =>
         match pyGet data "status" with
         | .error e => .error (e, s2, calls1)
         | .ok statusField =>
           if optJsonIsStr statusField "success" then
             match pyGetStrField data "analysis" "No analysis provided" with
             | .error e => .error (e, s2, calls1)
             | .ok analysisText =>
               match env.saveResult with
               | .error e => .error (.other e, s2, calls1 ++ [ExtCall.saveAnalysis projectName analysisText])
               | .ok _ =>
                 let s3 : ChatState := { s2 with awaitingDeploymentConfirmation := true }
                 .ok (String.intercalate "\n"
                        ["I\x27ve created a new static website project \x27" ++ projectName ++ "\x27 using Pulumi\x27s Azure Go template.",
                         "\n🤖 Pulumi Copilot Analysis:",
                         analysisText,
                         "\nAnalysis has been saved to the \x27analysis\x27 directory.",
                         "\nWould you like me to proceed with deployment? (yes/no)"],
                      s3, calls1 ++ [ExtCall.saveAnalysis projectName analysisText])
           else
             match pyGetStrField data "message" "Unknown error" with
             | .error e => .error (e, s2, calls1)
             | .ok msgText =>
               .ok (String.intercalate "\n"
                      ["I\x27ve created the project \x27" ++ projectName ++ "\x27, but the code analysis failed:",
                       msgText,
                       "Would you like to proceed with deployment anyway? (yes/no)"],
                    { s2 with awaitingDeploymentConfirmation := true }, calls1))
      (fun st cs =>
        ("Project created, but failed to parse the code analysis. Would you like to proceed with deployment? (yes/no)",
         { st with awaitingDeploymentConfirmation := true }, cs))

/-- The shared deployment block of `process_message` (lines 110-131,
duplicated verbatim at lines 142-163), starting from the state `s1`
(with the confirmation flag already cleared on the confirmation path).
`responses[-1]` on an empty list raises `IndexError`, which the inner
`except json.JSONDecodeError` does not catch. -/
def deployBranchBody (env : ChatEnv) (s1 : ChatState) : ChatStep :=
  let calls := [ExtCall.processRequest s1.currentProject "deploy"]
  match env.processRequestResult with
  | .error e => .error (.other e, s1, calls)
  | .ok responses =>
    catchJsonDecodeChat
      (match responses.getLast? with
       | none => .error (.other "list index out of range", s1, calls)
       | some lastR =>
         match env.parse lastR with
         | .error m => .error (.jsonDecode m, s1, calls)
         | .ok dd =>
           match pyGet dd "status" with
           | .error e => .error (e, s1, calls)
           | .ok statusField =>
             if optJsonIsStr statusField "success" then
               .ok (String.intercalate "\n"
                      (("I\x27ve deployed your application. Here\x27s what happened:"
                          :: responses.dropLast.map (fun r => "- " ++ r))
                        ++ ["✨ " ++ pyStr (jsonGetD dd "message" (Json.str "Deployment completed successfully"))]),
                    s1, calls)
             else
               .ok (String.intercalate "\n"
                      ("Deployment attempt completed. Here\x27s what happened:"
                          :: responses.map (fun r => "- " ++ r)),
                    s1, calls))
      (fun st cs =>
        (String.intercalate "\n"
           ("Deployment completed. Here\x27s what happened:"
               :: responses.map (fun r => "- " ++ r)),
         st, cs))

/-- The active-destroy block of `process_message` (lines 170-199),
reached when a project is active.  On a success status the project is
reset (line 187). -/
def destroyBranchBody (env : ChatEnv) (s0 : ChatState) : ChatStep :=
  let calls := [ExtCall.processRequest s0.currentProject "destroy"]
  match env.processRequestResult with
  | .error e => .error (.other e, s0, calls)
  | .ok responses =>
    catchJsonDecodeChat
      (match responses.getLast? with
       | none => .error (.other "list index out of range", s0, calls)
       | some lastR =>
         match env.parse lastR with
         | .error m => .error (.jsonDecode m, s0, calls)
         | .ok dd =>
           match pyGet dd "status" with
           | .error e => .error (e, s0, calls)
           | .ok statusField =>
             if optJsonIsStr statusField "success" then
               .ok (String.intercalate "\n"
                      (("I\x27ve destroyed your application. Here\x27s what I did:"
                          :: responses.dropLast.map (fun r => "- " ++ r))
                        ++ ["✨ " ++ pyStr (jsonGetD dd "message" (Json.str "Application destroyed successfully"))]),
                    { s0 with currentProject := none }, calls)
             else
               .ok (String.intercalate "\n"
                      ("I\x27ve attempted to destroy your application. Here\x27s what happened:"
                          :: responses.map (fun r => "- " ++ r)),
                    s0, calls))
      (fun st cs =>
        (String.intercalate "\n"
           ("I\x27ve attempted to destroy your application. Here\x27s what happened:"
               :: responses.map (fun r => "- " ++ r)),
         st, cs))

/-- The fallback capability menu of `process_message` (lines 206-221). -/
def menuText (currentProject : Option String) : String :=
  if truthyProject currentProject then
    "I can help you manage your project \x27" ++ pyStrOpt currentProject ++ "\x27. You can ask me to:\n• Deploy your application\n• Destroy your application\nOr create a new static website"
  else
    "I can help you create and manage static websites on Azure. Would you like me to create a simple Go app for a static website? Just let me know!"

/-- The result of one `process_message` call: the returned response, the
state after the call, and the outward calls made, in order. -/
structure ChatOutput where
  response : String
  state : ChatState
  calls : List ExtCall

/-- `AIChatInterface.process_message` (lines 44-224).  The user message
is appended to the history first (line 56); the branch dispatch follows
the source `elif` chain exactly; the assistant response is appended to
the history on every non-raising path (line 223).  The `.error` result
models an exception propagating out of the method; the theorems show
this never happens. -/
def AIChatInterface.process_message (s : ChatState) (userMessage : String) (env : ChatEnv) :
    Except PyErr ChatOutput :=
  let s0 : ChatState := { s with conversationHistory := s.conversationHistory ++ ["User: " ++ userMessage] }
  let ml := pyLower userMessage
  let step : ChatStep :=
    if s0.awaitingProjectName then
      catchExcChat (createBranchBody env { s0 with awaitingProjectName := false } (deriveProjectName userMessage))
        (fun m => "Sorry, I encountered an error while creating the project: " ++ m)
    else if s0.awaitingDeploymentConfirmation && affirmative ml then
      catchExcChat (deployBranchBody env { s0 with awaitingDeploymentConfirmation := false })
        (fun m => "Sorry, I encountered an error while deploying: " ++ m)
    else if strContains ml "deploy" && truthyProject s0.currentProject then
      catchExcChat (deployBranchBody env s0)
        (fun m => "Sorry, I encountered an error while deploying: " ++ m)
    else if strContains ml "destroy" || strContains ml "remove" || strContains ml "delete" then
      if truthyProject s0.currentProject = false then
        .ok ("There\x27s no active project to destroy. Would you like to create a new static website project?", s0, [])
      else
        catchExcChat (destroyBranchBody env s0)
          (fun m => "Sorry, I encountered an error while destroying the application: " ++ m)
    else if strContains ml "create" && strContains ml "static website" then
      .ok ("What would you like to name your project? (Please provide a simple name, it will be converted to lowercase with hyphens)",
           { s0 with awaitingProjectName := true }, [])
    else
      .ok (menuText s0.currentProject, s0, [])
  match step with
  | .ok (resp, st, cs) =>
    .ok ⟨resp, { st with conversationHistory := st.conversationHistory ++ ["Assistant: " ++ resp] }, cs⟩
  | .error (e, _, _) => .error e

/-- Folds a scripted conversation (message and oracle outcome per turn)
through `process_message`, keeping the state.  The propagating-exception
arm is unreachable (see the C5 theorem) and returns the current state to
keep the function total. -/
def runChat : ChatState → List (String × ChatEnv) → ChatState
  | s, [] => s
  | s, (m, env) :: rest =>
    match AIChatInterface.process_message s m env with
    | .ok out => runChat out.state rest
    | .error _ => s

/-- A deploy-style command loop aborts at the first non-zero return code:
only the prefix up to and including the failing command runs, and the
raised message carries the failing command and its captured stderr. -/
theorem runLoopRaise_abort (run : String → RunResult) (c : String) (post : List String)
    (hc : (run c).returncode ≠ 0) :
    ∀ pre : List String, (∀ x ∈ pre, (run x).returncode = 0) →
      runLoopRaise run (pre ++ c :: post) =
        (pre ++ [c], some ("Command failed: " ++ c ++ "\nError: " ++ (run c).stderr)) := by
  intro pre
  induction pre with
  | nil =>
    intro _
    simp [runLoopRaise, hc]
  | cons a as ih =>
    intro hpre
    have ha : (run a).returncode = 0 := hpre a (List.mem_cons_self a as)
    have ih' := ih (fun x hx => hpre x (List.mem_cons_of_mem a hx))
    simp [runLoopRaise, ha, ih']

/-- A deploy-style command loop with all-zero return codes runs every
command in order and raises nothing. -/
theorem runLoopRaise_allOk (run : String → RunResult) :
    ∀ cmds : List String, (∀ x ∈ cmds, (run x).returncode = 0) →
      runLoopRaise run cmds = (cmds, none) := by
  intro cmds
  induction cmds with
  | nil => intro _; rfl
  | cons a as ih =>
    intro h
    have ha : (run a).returncode = 0 := h a (List.mem_cons_self a as)
    have ih' := ih (fun x hx => h x (List.mem_cons_of_mem a hx))
    simp [runLoopRaise, ha, ih']

/-- A `check=True` command loop aborts at the first non-zero return
code; the raised `CalledProcessError` text carries the command and the
exit status but not the captured stderr. -/
theorem runLoopCheck_abort (run : String → RunResult) (c : String) (post : List String)
    (hc : (run c).returncode ≠ 0) :
    ∀ pre : List String, (∀ x ∈ pre, (run x).returncode = 0) →
      runLoopCheck run (pre ++ c :: post) =
        (pre ++ [c], some (calledProcessErrorStr c (run c).returncode)) := by
  intro pre
  induction pre with
  | nil =>
    intro _
    simp [runLoopCheck, hc]
  | cons a as ih =>
    intro hpre
    have ha : (run a).returncode = 0 := hpre a (List.mem_cons_self a as)
    have ih' := ih (fun x hx => hpre x (List.mem_cons_of_mem a hx))
    simp [runLoopCheck, ha, ih']

/-- A `check=True` command loop with all-zero return codes runs every
command in order and raises nothing. -/
theorem runLoopCheck_allOk (run : String → RunResult) :
    ∀ cmds : List String, (∀ x ∈ cmds, (run x).returncode = 0) →
      runLoopCheck run cmds = (cmds, none) := by
  intro cmds
  induction cmds with
  | nil => intro _; rfl
  | cons a as ih =>
    intro h
    have ha : (run a).returncode = 0 := h a (List.mem_cons_self a as)
    have ih' := ih (fun x hx => h x (List.mem_cons_of_mem a hx))
    simp [runLoopCheck, ha, ih']

/-- Wrapping any branch body in the catch-all handler yields a normal
result: `except Exception` catches every modelled exception. -/
theorem catchExcChat_ok (body : ChatStep) (h : String → String) :
    ∃ r, catchExcChat body h = Except.ok r := by
  rcases body with ⟨e, st, cs⟩ | r
  · exact ⟨_, rfl⟩
  · exact ⟨_, rfl⟩

/-- The deployment block never mutates the state it is entered with, and
its call trace is exactly one `process_request(..., "deploy")`. -/
theorem deployBranch_result (env : ChatEnv) (s1 : ChatState) (h : String → String) :
    ∃ r, catchExcChat (deployBranchBody env s1) h =
      Except.ok (r, s1, [ExtCall.processRequest s1.currentProject "deploy"]) := by
  rcases hpr : env.processRequestResult with e | rs
  · simp only [deployBranchBody, catchJsonDecodeChat, catchExcChat, hpr]
    exact ⟨_, rfl⟩
  · rcases hL : rs.getLast? with _ | lastR
    · simp only [deployBranchBody, catchJsonDecodeChat, catchExcChat, hpr, hL]
      exact ⟨_, rfl⟩
    · rcases hP : env.parse lastR with m | dd
      · simp only [deployBranchBody, catchJsonDecodeChat, catchExcChat, hpr, hL, hP]
        exact ⟨_, rfl⟩
      · rcases hS : pyGet dd "status" with (m | m) | stf
        · simp only [deployBranchBody, catchJsonDecodeChat, catchExcChat, hpr, hL, hP, hS]
          exact ⟨_, rfl⟩
        · simp only [deployBranchBody, catchJsonDecodeChat, catchExcChat, hpr, hL, hP, hS]
          exact ⟨_, rfl⟩
        · by_cases hsucc : optJsonIsStr stf "success" = true
          · simp only [deployBranchBody, catchJsonDecodeChat, catchExcChat, hpr, hL, hP, hS, hsucc, if_true]
            exact ⟨_, rfl⟩
          · simp only [deployBranchBody, catchJsonDecodeChat, catchExcChat, hpr, hL, hP, hS, if_neg hsucc]
            exact ⟨_, rfl⟩

/-- The create branch's trace always begins with the
`create_new_project` call; when creation succeeds the current project is
set to the given name, and when creation raises the state is returned
unchanged. -/
theorem createBranch_result (env : ChatEnv) (s1 : ChatState) (p : String) (h : String → String) :
    ∃ r st cs, catchExcChat (createBranchBody env s1 p) h =
      Except.ok (r, st, ExtCall.createNewProject "static-website-azure-go" p :: cs) ∧
      (∀ x, env.createResult = Except.ok x → st.currentProject = some p) ∧
      (∀ e, env.createResult = Except.error e → st = s1) := by
  rcases hcr : env.createResult with e | creation
  · simp only [createBranchBody, catchJsonDecodeChat, catchExcChat, hcr]
    exact ⟨_, _, _, rfl, fun x hx => Except.noConfusion hx, fun e _ => rfl⟩
  · rcases hP : env.parse env.analyzeResponse with m | data
    · simp only [createBranchBody, catchJsonDecodeChat, catchExcChat, hcr, hP]
      exact ⟨_, _, _, rfl, fun x _ => rfl, fun e h => Except.noConfusion h⟩
    · rcases hS : pyGet data "status" with (m | m) | stf
      · simp only [createBranchBody, catchJsonDecodeChat, catchExcChat, hcr, hP, hS]
        exact ⟨_, _, _, rfl, fun x _ => rfl, fun e h => Except.noConfusion h⟩
      · simp only [createBranchBody, catchJsonDecodeChat, catchExcChat, hcr, hP, hS]
        exact ⟨_, _, _, rfl, fun x _ => rfl, fun e h => Except.noConfusion h⟩
      · by_cases hsucc : optJsonIsStr stf "success" = true
        · rcases hA : pyGetStrField data "analysis" "No analysis provided" with (m | m) | analysisText
          · simp only [createBranchBody, catchJsonDecodeChat, catchExcChat, hcr, hP, hS, hsucc, if_true, hA]
            exact ⟨_, _, _, rfl, fun x _ => rfl, fun e h => Except.noConfusion h⟩
          · simp only [createBranchBody, catchJsonDecodeChat, catchExcChat, hcr, hP, hS, hsucc, if_true, hA]
            exact ⟨_, _, _, rfl, fun x _ => rfl, fun e h => Except.noConfusion h⟩
          · rcases hsv : env.saveResult with e | u
            · simp only [createBranchBody, catchJsonDecodeChat, catchExcChat, hcr, hP, hS, hsucc, if_true, hA, hsv]
              exact ⟨_, _, _, rfl, fun x _ => rfl, fun e h => Except.noConfusion h⟩
            · simp only [createBranchBody, catchJsonDecodeChat, catchExcChat, hcr, hP, hS, hsucc, if_true, hA, hsv]
              exact ⟨_, _, _, rfl, fun x _ => rfl, fun e h => Except.noConfusion h⟩
        · rcases hM : pyGetStrField data "message" "Unknown error" with (m | m) | msgText
          · simp only [createBranchBody, catchJsonDecodeChat, catchExcChat, hcr, hP, hS, if_neg hsucc, hM]
            exact ⟨_, _, _, rfl, fun x _ => rfl, fun e h => Except.noConfusion h⟩
          · simp only [createBranchBody, catchJsonDecodeChat, catchExcChat, hcr, hP, hS, if_neg hsucc, hM]
            exact ⟨_, _, _, rfl, fun x _ => rfl, fun e h => Except.noConfusion h⟩
          · simp only [createBranchBody, catchJsonDecodeChat, catchExcChat, hcr, hP, hS, if_neg hsucc, hM]
            exact ⟨_, _, _, rfl, fun x _ => rfl, fun e h => Except.noConfusion h⟩

/-- C5: process_message never propagates an exception to its caller:
for every state, message and oracle outcome it returns a normal
response, because every dispatch branch is wrapped in a catch-all
handler producing an apology string; and at the agent level every
failure of the deploy / destroy bodies is converted into a structured
`{status: "error", message}` JSON value. -/
theorem C5_failures_caught :
    (∀ (s : ChatState) (m : String) (env : ChatEnv),
        ∃ out, AIChatInterface.process_message s m env = Except.ok out)
    ∧ (∀ (env : DeployEnv) (ac pt : String) (ctx : Option String) (e : PyErr) (tr : List String),
        deployBody env ac pt ctx = (Except.error e, tr) →
        DeploymentAgent.deploy env ac pt ctx = (errObj ("Deployment failed: " ++ e.msg), tr))
    ∧ (∀ (env : DeployEnv) (ac pt p : String) (e : PyErr) (tr : List String),
        destroyBody env ac pt p = (Except.error e, tr) →
        DeploymentAgent.destroy env ac pt p = (errObj ("Destroy failed: " ++ e.msg), tr)) := by
  refine ⟨?_, ?_, ?_⟩
  · intro s m env
    cases h1 : s.awaitingProjectName with
    | true =>
      obtain ⟨⟨r, st, cs⟩, hr⟩ := catchExcChat_ok
        (createBranchBody env
          ⟨s.currentProject, false, s.awaitingDeploymentConfirmation,
           s.conversationHistory ++ ["User: " ++ m]⟩
          (deriveProjectName m))
        (fun msg => "Sorry, I encountered an error while creating the project: " ++ msg)
      simp [AIChatInterface.process_message, h1]
      rw [hr]
      exact ⟨_, rfl⟩
    | false =>
      cases h2 : s.awaitingDeploymentConfirmation && affirmative (pyLower m) with
      | true =>
        obtain ⟨⟨r, st, cs⟩, hr⟩ := catchExcChat_ok
          (deployBranchBody env
            ⟨s.currentProject, false, false,
             s.conversationHistory ++ ["User: " ++ m]⟩)
          (fun msg => "Sorry, I encountered an error while deploying: " ++ msg)
        simp [AIChatInterface.process_message, h1, h2]
        rw [hr]
        exact ⟨_, rfl⟩
      | false =>
        cases h3 : strContains (pyLower m) "deploy" && truthyProject s.currentProject with
        | true =>
          obtain ⟨⟨r, st, cs⟩, hr⟩ := catchExcChat_ok
            (deployBranchBody env
              ⟨s.currentProject, false, s.awaitingDeploymentConfirmation,
               s.conversationHistory ++ ["User: " ++ m]⟩)
            (fun msg => "Sorry, I encountered an error while deploying: " ++ msg)
          simp [AIChatInterface.process_message, h1, h2, h3]
          rw [hr]
          exact ⟨_, rfl⟩
        | false =>
          cases h4 : strContains (pyLower m) "destroy" || strContains (pyLower m) "remove" || strContains (pyLower m) "delete" with
          | true =>
            cases h5 : truthyProject s.currentProject with
            | false =>
              simp [AIChatInterface.process_message, h1, h2, h3, h4, h5]
            | true =>
              have h3d : strContains (pyLower m) "deploy" = false := by
                simpa [h5] using h3
              obtain ⟨⟨r, st, cs⟩, hr⟩ := catchExcChat_ok
                (destroyBranchBody env
                  ⟨s.currentProject, false, s.awaitingDeploymentConfirmation,
                   s.conversationHistory ++ ["User: " ++ m]⟩)
                (fun msg => "Sorry, I encountered an error while destroying the application: " ++ msg)
              simp [AIChatInterface.process_message, h1, h2, h3d, h4, h5]
              rw [hr]
              exact ⟨_, rfl⟩
          | false =>
            cases h6 : strContains (pyLower m) "create" && strContains (pyLower m) "static website" with
            | true =>
              simp [AIChatInterface.process_message, h1, h2, h3, h4, h6]
            | false =>
              simp [AIChatInterface.process_message, h1, h2, h3, h4, h6]
  · intro env ac pt ctx e tr h
    simp [DeploymentAgent.deploy, h]
  · intro env ac pt p e tr h
    simp [DeploymentAgent.destroy, h]

/-- Witness for C5 at concrete inputs: a fresh chat state with a failing
orchestrator still returns normally, and a deploy body failing on
malformed credentials JSON is converted into the structured error
object. -/
theorem C5_witness :
    (∃ out, AIChatInterface.process_message initialChatState "hello"
        ⟨Except.error "boom", "", fun _ => Except.error "bad", Except.ok (), Except.error "down"⟩ =
      Except.ok out)
    ∧ DeploymentAgent.deploy
        ⟨fun _ => Except.error "Expecting value: line 1 column 1 (char 0)", fun _ => ⟨0, "", ""⟩, fun _ => true⟩
        "notjson" "tok" (some "p") =
      (errObj ("Deployment failed: " ++ "Expecting value: line 1 column 1 (char 0)"), []) := by
  constructor
  · exact C5_failures_caught.1 initialChatState "hello"
      ⟨Except.error "boom", "", fun _ => Except.error "bad", Except.ok (), Except.error "down"⟩
  · exact C5_failures_caught.2.1
      ⟨fun _ => Except.error "Expecting value: line 1 column 1 (char 0)", fun _ => ⟨0, "", ""⟩, fun _ => true⟩
      "notjson" "tok" (some "p") (.jsonDecode "Expecting value: line 1 column 1 (char 0)") [] rfl

/-- On the deployment-confirmation branch (not awaiting a project name,
awaiting confirmation, affirmative word present) `process_message`
clears the confirmation flag before the attempt, leaves the current
project and the project-name flag untouched, and makes exactly the one
`process_request(..., "deploy")` call, whatever the oracle outcome. -/
theorem pm_confirmation_branch (s : ChatState) (m : String) (env : ChatEnv)
    (hp : s.awaitingProjectName = false)
    (hd : s.awaitingDeploymentConfirmation = true)
    (ha : affirmative (pyLower m) = true) :
    ∃ resp, AIChatInterface.process_message s m env = Except.ok
      ⟨resp,
       ⟨s.currentProject, false, false,
        s.conversationHistory ++ ["User: " ++ m] ++ ["Assistant: " ++ resp]⟩,
       [ExtCall.processRequest s.currentProject "deploy"]⟩ := by
  obtain ⟨r, hr⟩ := deployBranch_result env
    ⟨s.currentProject, false, false, s.conversationHistory ++ ["User: " ++ m]⟩
    (fun msg => "Sorry, I encountered an error while deploying: " ++ msg)
  refine ⟨r, ?_⟩
  simp [AIChatInterface.process_message, hp, hd, ha]
  rw [hr]
  simp

/-- C1 (counterexample to the claim as stated): in the reachable state
where BOTH flags are set, an affirmative message ("yes") takes the
awaiting-project-name branch instead: no `process_request(..,"deploy")`
call is made and `awaiting_deployment_confirmation` remains true, so
the universally quantified claim over every state with the confirmation
flag set is false. -/
theorem C1_counterexample :
    ∃ out, AIChatInterface.process_message ⟨some "site", true, true, []⟩ "yes"
        ⟨Except.error "boom", "", fun _ => Except.error "bad", Except.ok (), Except.ok []⟩ =
      Except.ok out ∧
      countDeployRequests out.calls = 0 ∧
      out.state.awaitingDeploymentConfirmation = true := by
  exact ⟨_, rfl, rfl, rfl⟩

/-- C1 (amended): for every state in which
`awaiting_deployment_confirmation` is true AND `awaiting_project_name`
is false, a message whose lowercased text contains an affirmative word
triggers exactly one deployment command sequence (one
`process_request(..., "deploy")` call) and clears the confirmation
flag. -/
theorem C1_affirmative_single_deploy (s : ChatState) (m : String) (env : ChatEnv)
    (hp : s.awaitingProjectName = false)
    (hd : s.awaitingDeploymentConfirmation = true)
    (ha : affirmative (pyLower m) = true) :
    ∃ out, AIChatInterface.process_message s m env = Except.ok out ∧
      countDeployRequests out.calls = 1 ∧
      out.state.awaitingDeploymentConfirmation = false := by
  obtain ⟨resp, hout⟩ := pm_confirmation_branch s m env hp hd ha
  exact ⟨_, hout, rfl, rfl⟩

/-- Witness for the amended C1 at a concrete input. -/
theorem C1_witness :
    ∃ out, AIChatInterface.process_message ⟨some "site", false, true, []⟩ "yes"
        ⟨Except.ok "done", "", fun _ => Except.error "bad", Except.ok (), Except.ok ["a", "b"]⟩ =
      Except.ok out ∧
      countDeployRequests out.calls = 1 ∧
      out.state.awaitingDeploymentConfirmation = false :=
  C1_affirmative_single_deploy ⟨some "site", false, true, []⟩ "yes"
    ⟨Except.ok "done", "", fun _ => Except.error "bad", Except.ok (), Except.ok ["a", "b"]⟩
    rfl rfl (by decide)

/-- C8: on the deployment-confirmation branch the confirmation flag is
cleared before the deployment attempt, so it is false after
`process_message` returns for every oracle outcome, including a raised
deployment exception, while the current project is left unchanged (no
project reset on the exception path). -/
theorem C8_flag_cleared_project_kept (s : ChatState) (m : String) (env : ChatEnv)
    (hp : s.awaitingProjectName = false)
    (hd : s.awaitingDeploymentConfirmation = true)
    (ha : affirmative (pyLower m) = true) :
    ∃ out, AIChatInterface.process_message s m env = Except.ok out ∧
      out.state.awaitingDeploymentConfirmation = false ∧
      out.state.currentProject = s.currentProject := by
  obtain ⟨resp, hout⟩ := pm_confirmation_branch s m env hp hd ha
  exact ⟨_, hout, rfl, rfl⟩

/-- Witness for C8 at a concrete input where the deployment raised an
exception: the flag is still cleared and the project is not reset. -/
theorem C8_witness :
    ∃ out, AIChatInterface.process_message ⟨some "site", false, true, []⟩ "yes please"
        ⟨Except.ok "done", "", fun _ => Except.error "bad", Except.ok (),
         Except.error "deployment exploded"⟩ =
      Except.ok out ∧
      out.state.awaitingDeploymentConfirmation = false ∧
      out.state.currentProject = some "site" :=
  C8_flag_cleared_project_kept ⟨some "site", false, true, []⟩ "yes please"
    ⟨Except.ok "done", "", fun _ => Except.error "bad", Except.ok (),
     Except.error "deployment exploded"⟩
    rfl rfl (by decide)

/-- C10: affirmative detection is substring-based, not word-based: in
confirmation mode (confirmation flag set, project-name flag clear) any
message whose lowercased text contains "yes", "sure" or "okay" anywhere
as a substring triggers the deployment sequence; in particular "eyes"
contains "yes" and "not sure" contains "sure". -/
theorem C10_substring_detection :
    (∀ (s : ChatState) (m : String) (env : ChatEnv),
        s.awaitingProjectName = false →
        s.awaitingDeploymentConfirmation = true →
        (strContains (pyLower m) "yes" = true ∨ strContains (pyLower m) "sure" = true ∨
         strContains (pyLower m) "okay" = true) →
        ∃ out, AIChatInterface.process_message s m env = Except.ok out ∧
          countDeployRequests out.calls = 1)
    ∧ strContains "eyes" "yes" = true
    ∧ strContains "not sure" "sure" = true := by
  refine ⟨?_, by decide, by decide⟩
  intro s m env hp hd hsub
  have ha : affirmative (pyLower m) = true := by
    rcases hsub with h | h | h <;> simp [affirmative, h]
  obtain ⟨resp, hout⟩ := pm_confirmation_branch s m env hp hd ha
  exact ⟨_, hout, rfl⟩

/-- Witness for C10 at the concrete message "eyes" (affirmative only as
a substring of another word). -/
theorem C10_witness :
    ∃ out, AIChatInterface.process_message ⟨some "site", false, true, []⟩ "eyes"
        ⟨Except.ok "done", "", fun _ => Except.error "bad", Except.ok (), Except.ok ["a"]⟩ =
      Except.ok out ∧
      countDeployRequests out.calls = 1 :=
  C10_substring_detection.1 ⟨some "site", false, true, []⟩ "eyes"
    ⟨Except.ok "done", "", fun _ => Except.error "bad", Except.ok (), Except.ok ["a"]⟩
    rfl rfl (Or.inl (by decide))

/-- C2: while awaiting a project name, the project identifier passed to
project creation is the message stripped of leading/trailing whitespace,
spaces replaced by hyphens, lowercased; when creation succeeds it also
becomes the current project; in particular "My Site" yields "my-site". -/
theorem C2_project_name_derivation :
    deriveProjectName "My Site" = "my-site"
    ∧ ∀ (s : ChatState) (m : String) (env : ChatEnv),
        s.awaitingProjectName = true →
        ∃ out, AIChatInterface.process_message s m env = Except.ok out ∧
          out.calls.head? = some (ExtCall.createNewProject "static-website-azure-go" (deriveProjectName m)) ∧
          (∀ x, env.createResult = Except.ok x → out.state.currentProject = some (deriveProjectName m)) := by
  refine ⟨by decide, ?_⟩
  intro s m env hp
  obtain ⟨r, st, cs, hr, hok, herr⟩ := createBranch_result env
    ⟨s.currentProject, false, s.awaitingDeploymentConfirmation,
     s.conversationHistory ++ ["User: " ++ m]⟩
    (deriveProjectName m)
    (fun msg => "Sorry, I encountered an error while creating the project: " ++ msg)
  refine ⟨⟨r, ⟨st.currentProject, st.awaitingProjectName, st.awaitingDeploymentConfirmation,
      st.conversationHistory ++ ["Assistant: " ++ r]⟩,
      ExtCall.createNewProject "static-website-azure-go" (deriveProjectName m) :: cs⟩, ?_, rfl, ?_⟩
  · simp only [AIChatInterface.process_message, hp, if_true]
    rw [hr]
  · intro x hx
    exact hok x hx

/-- Witness for C2 at the concrete input "My Site". -/
theorem C2_witness :
    deriveProjectName "My Site" = "my-site"
    ∧ ∃ out, AIChatInterface.process_message ⟨none, true, false, []⟩ "My Site"
        ⟨Except.ok "created", "{}", fun _ => Except.error "bad", Except.ok (), Except.ok []⟩ =
      Except.ok out ∧
      out.calls.head? = some (ExtCall.createNewProject "static-website-azure-go" (deriveProjectName "My Site")) ∧
      (∀ x, (⟨Except.ok "created", "{}", fun _ => Except.error "bad", Except.ok (), Except.ok []⟩ : ChatEnv).createResult = Except.ok x →
        out.state.currentProject = some (deriveProjectName "My Site")) :=
  ⟨C2_project_name_derivation.1,
   C2_project_name_derivation.2 ⟨none, true, false, []⟩ "My Site"
     ⟨Except.ok "created", "{}", fun _ => Except.error "bad", Except.ok (), Except.ok []⟩ rfl⟩

/-- C3: a message containing "destroy", "remove" or "delete" while no
project is active and neither awaiting flag is set returns the no-op
message and makes no outward call at all. -/
theorem C3_destroy_without_project (s : ChatState) (m : String) (env : ChatEnv)
    (hp : s.awaitingProjectName = false)
    (hd : s.awaitingDeploymentConfirmation = false)
    (hcp : s.currentProject = none)
    (hm : (strContains (pyLower m) "destroy" || strContains (pyLower m) "remove" ||
           strContains (pyLower m) "delete") = true) :
    ∃ out, AIChatInterface.process_message s m env = Except.ok out ∧
      out.response = "There\x27s no active project to destroy. Would you like to create a new static website project?" ∧
      out.calls = [] := by
  simp [AIChatInterface.process_message, hp, hd, hcp, hm, truthyProject]

/-- Witness for C3 at the concrete message "destroy it". -/
theorem C3_witness :
    ∃ out, AIChatInterface.process_message ⟨none, false, false, []⟩ "destroy it"
        ⟨Except.error "boom", "", fun _ => Except.error "bad", Except.ok (), Except.error "down"⟩ =
      Except.ok out ∧
      out.response = "There\x27s no active project to destroy. Would you like to create a new static website project?" ∧
      out.calls = [] :=
  C3_destroy_without_project ⟨none, false, false, []⟩ "destroy it"
    ⟨Except.error "boom", "", fun _ => Except.error "bad", Except.ok (), Except.error "down"⟩
    rfl rfl rfl (by decide)

/-- C6: the two conversation flags are not mutually exclusive: after the
scripted exchange create-website / name / create-website (with the
creation succeeding and the analysis response failing to parse), both
`awaiting_project_name` and `awaiting_deployment_confirmation` are true
simultaneously. -/
theorem C6_both_flags_reachable :
    (runChat initialChatState
      [("create static website", ⟨Except.ok "x", "", fun _ => Except.error "bad", Except.ok (), Except.ok []⟩),
       ("mysite", ⟨Except.ok "x", "", fun _ => Except.error "bad", Except.ok (), Except.ok []⟩),
       ("create static website", ⟨Except.ok "x", "", fun _ => Except.error "bad", Except.ok (), Except.ok []⟩)]).awaitingProjectName = true
    ∧ (runChat initialChatState
      [("create static website", ⟨Except.ok "x", "", fun _ => Except.error "bad", Except.ok (), Except.ok []⟩),
       ("mysite", ⟨Except.ok "x", "", fun _ => Except.error "bad", Except.ok (), Except.ok []⟩),
       ("create static website", ⟨Except.ok "x", "", fun _ => Except.error "bad", Except.ok (), Except.ok []⟩)]).awaitingDeploymentConfirmation = true := by
  constructor
  · rfl
  · rfl

/-- C7: when the analysis response body is not valid JSON (while
awaiting a project name, with creation succeeding), process_message
still returns the prompt asking whether to proceed with deployment and
sets the confirmation flag. -/
theorem C7_malformed_analysis_still_prompts (s : ChatState) (m : String) (env : ChatEnv)
    (hp : s.awaitingProjectName = true)
    (c : String) (hc : env.createResult = Except.ok c)
    (d : String) (hd : env.parse env.analyzeResponse = Except.error d) :
    ∃ out, AIChatInterface.process_message s m env = Except.ok out ∧
      out.response = "Project created, but failed to parse the code analysis. Would you like to proceed with deployment? (yes/no)" ∧
      out.state.awaitingDeploymentConfirmation = true := by
  simp [AIChatInterface.process_message, createBranchBody, catchJsonDecodeChat, catchExcChat, hp, hc, hd]

/-- Witness for C7 at a concrete non-JSON analysis response. -/
theorem C7_witness :
    ∃ out, AIChatInterface.process_message ⟨none, true, false, []⟩ "My Site"
        ⟨Except.ok "created", "<html>not json</html>",
         fun _ => Except.error "Expecting value: line 1 column 1 (char 0)", Except.ok (), Except.ok []⟩ =
      Except.ok out ∧
      out.response = "Project created, but failed to parse the code analysis. Would you like to proceed with deployment? (yes/no)" ∧
      out.state.awaitingDeploymentConfirmation = true :=
  C7_malformed_analysis_still_prompts ⟨none, true, false, []⟩ "My Site"
    ⟨Except.ok "created", "<html>not json</html>",
     fun _ => Except.error "Expecting value: line 1 column 1 (char 0)", Except.ok (), Except.ok []⟩
    rfl "created" rfl "Expecting value: line 1 column 1 (char 0)" rfl

/-- C4 (amended): in each command loop the external invocations run in
the fixed listed order and a non-zero exit status aborts the remaining
invocations of that loop; the creation, deployment and destruction
loops surface the captured stderr verbatim inside the resulting error
value, while the git commit loop's error value reports only the failing
command and its exit status (the captured stderr is omitted). -/
theorem C4_amended_sequences :
    (∀ (env : CreateEnv) (t p : String),
        env.makedirsResult = Except.ok () →
        (env.run (pulumiNewCmd t p)).returncode ≠ 0 →
        PlatformOrchestrator.create_new_project env t p =
          (Except.error ("Failed to create project: " ++
             ("Command failed: " ++ pulumiNewCmd t p ++ "\nError: " ++ (env.run (pulumiNewCmd t p)).stderr)),
           [pulumiNewCmd t p]))
    ∧ (∀ (env : DeployEnv) (ac pt p : String) (cj : Json) (pre : List String) (c : String) (post : List String),
        env.parse ac = Except.ok cj →
        checkAzureCreds cj = Except.ok () →
        p ≠ "" →
        env.pathExists p = true →
        deployCommands p = pre ++ c :: post →
        (∀ x ∈ pre, (env.run x).returncode = 0) →
        (env.run c).returncode ≠ 0 →
        DeploymentAgent.deploy env ac pt (some p) =
          (errObj ("Deployment failed: " ++
             ("Command failed: " ++ c ++ "\nError: " ++ (env.run c).stderr)),
           pre ++ [c]))
    ∧ (∀ (env : DeployEnv) (ac pt p : String) (cj : Json),
        env.parse ac = Except.ok cj →
        checkAzureCreds cj = Except.ok () →
        p ≠ "" →
        env.pathExists p = true →
        (∀ x ∈ deployCommands p, (env.run x).returncode = 0) →
        ∃ j, DeploymentAgent.deploy env ac pt (some p) =
          (j, deployCommands p ++ ["pulumi stack output --json"]))
    ∧ (∀ (env : DeployEnv) (ac pt p : String) (cj : Json) (pre : List String) (c : String) (post : List String),
        env.parse ac = Except.ok cj →
        checkAzureCreds cj = Except.ok () →
        destroyCommands p = pre ++ c :: post →
        (∀ x ∈ pre, (env.run x).returncode = 0) →
        (env.run c).returncode ≠ 0 →
        DeploymentAgent.destroy env ac pt p =
          (errObj ("Destroy failed: " ++
             ("Command failed: " ++ c ++ "\nError: " ++ (env.run c).stderr)),
           pre ++ [c]))
    ∧ (∀ (env : DeployEnv) (ac pt p : String) (cj : Json),
        env.parse ac = Except.ok cj →
        checkAzureCreds cj = Except.ok () →
        (∀ x ∈ destroyCommands p, (env.run x).returncode = 0) →
        DeploymentAgent.destroy env ac pt p =
          (Json.obj [("status", Json.str "success"),
                     ("message", Json.str "Application successfully destroyed")],
           destroyCommands p))
    ∧ (∀ (env : GitEnv) (nm : Option String) (repo : GitRepo) (pre : List String) (c : String) (post : List String),
        env.getRepo nm = Except.ok repo →
        gitCommands repo.clone_url = pre ++ c :: post →
        (∀ x ∈ pre, (env.run x).returncode = 0) →
        (env.run c).returncode ≠ 0 →
        GitOpsAgent.commit_code env nm =
          ("Failed to commit code: " ++ calledProcessErrorStr c (env.run c).returncode,
           pre ++ [c]))
    ∧ (∀ (env : GitEnv) (nm : Option String) (repo : GitRepo),
        env.getRepo nm = Except.ok repo →
        (∀ x ∈ gitCommands repo.clone_url, (env.run x).returncode = 0) →
        GitOpsAgent.commit_code env nm =
          ("Code committed to repository: " ++ repo.html_url, gitCommands repo.clone_url)) := by
  refine ⟨?_, ?_, ?_, ?_, ?_, ?_, ?_⟩
  · intro env t p hmk hc
    have h := runLoopRaise_abort env.run (pulumiNewCmd t p) [] hc [] (fun x hx => nomatch hx)
    simp only [List.nil_append] at h
    simp [PlatformOrchestrator.create_new_project, hmk, h]
  · intro env ac pt p cj pre c post hparse hck hp hpe hsplit hpre hc
    have h := runLoopRaise_abort env.run c post hc pre hpre
    simp [DeploymentAgent.deploy, deployBody, hparse, hck, hp, hpe, hsplit, h, PyErr.msg]
  · intro env ac pt p cj hparse hck hp hpe hall
    have h := runLoopRaise_allOk env.run (deployCommands p) hall
    cases hrc : (env.run "pulumi stack output --json").returncode == 0 with
    | true =>
      cases hps : env.parse (env.run "pulumi stack output --json").stdout with
      | error m =>
        refine ⟨errObj ("Deployment failed: " ++ m), ?_⟩
        simp [DeploymentAgent.deploy, deployBody, hparse, hck, hp, hpe, h, hrc, hps, PyErr.msg, errObj]
      | ok outputs =>
        refine ⟨Json.obj [("status", Json.str "success"),
          ("message", Json.str "Deployment completed successfully"), ("outputs", outputs)], ?_⟩
        simp [DeploymentAgent.deploy, deployBody, hparse, hck, hp, hpe, h, hrc, hps]
    | false =>
      refine ⟨Json.obj [("status", Json.str "success"),
        ("message", Json.str "Deployment completed successfully, but couldn\x27t fetch URLs")], ?_⟩
      simp [DeploymentAgent.deploy, deployBody, hparse, hck, hp, hpe, h, hrc]
  · intro env ac pt p cj pre c post hparse hck hsplit hpre hc
    have h := runLoopRaise_abort env.run c post hc pre hpre
    simp [DeploymentAgent.destroy, destroyBody, hparse, hck, hsplit, h, PyErr.msg]
  · intro env ac pt p cj hparse hck hall
    have h := runLoopRaise_allOk env.run (destroyCommands p) hall
    simp [DeploymentAgent.destroy, destroyBody, hparse, hck, h]
  · intro env nm repo pre c post hrepo hsplit hpre hc
    have h := runLoopCheck_abort env.run c post hc pre hpre
    simp [GitOpsAgent.commit_code, hrepo, hsplit, h]
  · intro env nm repo hrepo hall
    have h := runLoopCheck_allOk env.run (gitCommands repo.clone_url) hall
    simp [GitOpsAgent.commit_code, hrepo, h]

/-- C4 (counterexample to the claim as stated): a concrete git commit
run whose first command fails with captured stderr "fatal: boom"
produces the error value
"Failed to commit code: Command 'git init' returned non-zero exit
status 1.", which does NOT contain the captured stderr text, refuting
"surfaces the captured stderr text verbatim in the resulting error
value" for the commit sequence. -/
theorem C4_counterexample :
    GitOpsAgent.commit_code
      ⟨fun _ => Except.ok ⟨"https://github.example/demo.git", "https://github.example/demo"⟩,
       fun _ => Except.error "unused",
       fun _ => ⟨1, "", "fatal: boom"⟩⟩
      (some "demo-app") =
      ("Failed to commit code: Command \x27git init\x27 returned non-zero exit status 1.", ["git init"])
    ∧ strContains "Failed to commit code: Command \x27git init\x27 returned non-zero exit status 1." "fatal: boom" = false := by
  constructor
  · rfl
  · decide

/-- Witness for the amended C4: each conjunct applied at concrete
environments. -/
theorem C4_witness :
    (PlatformOrchestrator.create_new_project
        ⟨fun _ => ⟨1, "", "template not found"⟩, Except.ok (), Except.ok ()⟩
        "static-website-azure-go" "demo" =
      (Except.error ("Failed to create project: " ++
         ("Command failed: " ++ pulumiNewCmd "static-website-azure-go" "demo" ++
          "\nError: " ++ "template not found")),
       [pulumiNewCmd "static-website-azure-go" "demo"]))
    ∧ (DeploymentAgent.deploy
        ⟨fun _ => Except.ok (Json.obj [("clientId", Json.str "a"), ("clientSecret", Json.str "b"),
            ("tenantId", Json.str "c"), ("subscriptionId", Json.str "d")]),
         fun cmd => if cmd = "go mod tidy" then ⟨1, "", "missing go.sum"⟩ else ⟨0, "", ""⟩,
         fun _ => true⟩
        "creds" "tok" (some "demo") =
      (errObj ("Deployment failed: " ++
         ("Command failed: " ++ "go mod tidy" ++ "\nError: " ++ "missing go.sum")),
       ["pulumi login"] ++ ["go mod tidy"]))
    ∧ (∃ j, DeploymentAgent.deploy
        ⟨fun _ => Except.ok (Json.obj [("clientId", Json.str "a"), ("clientSecret", Json.str "b"),
            ("tenantId", Json.str "c"), ("subscriptionId", Json.str "d")]),
         fun _ => ⟨0, "out", ""⟩,
         fun _ => true⟩
        "creds" "tok" (some "demo") =
      (j, deployCommands "demo" ++ ["pulumi stack output --json"]))
    ∧ (DeploymentAgent.destroy
        ⟨fun _ => Except.ok (Json.obj [("clientId", Json.str "a"), ("clientSecret", Json.str "b"),
            ("tenantId", Json.str "c"), ("subscriptionId", Json.str "d")]),
         fun cmd => if cmd = "pulumi destroy --yes" then ⟨1, "", "stack locked"⟩ else ⟨0, "", ""⟩,
         fun _ => true⟩
        "creds" "tok" "demo" =
      (errObj ("Destroy failed: " ++
         ("Command failed: " ++ "pulumi destroy --yes" ++ "\nError: " ++ "stack locked")),
       ["pulumi login", "pulumi stack select talkitdoit-org/demo/dev"] ++ ["pulumi destroy --yes"]))
    ∧ (DeploymentAgent.destroy
        ⟨fun _ => Except.ok (Json.obj [("clientId", Json.str "a"), ("clientSecret", Json.str "b"),
            ("tenantId", Json.str "c"), ("subscriptionId", Json.str "d")]),
         fun _ => ⟨0, "", ""⟩,
         fun _ => true⟩
        "creds" "tok" "demo" =
      (Json.obj [("status", Json.str "success"),
                 ("message", Json.str "Application successfully destroyed")],
       destroyCommands "demo"))
    ∧ (GitOpsAgent.commit_code
        ⟨fun _ => Except.ok ⟨"https://gh.example/demo.git", "https://gh.example/demo"⟩,
         fun _ => Except.error "unused",
         fun cmd => if cmd = "git push -u origin main" then ⟨1, "", "auth failed"⟩ else ⟨0, "", ""⟩⟩
        (some "demo") =
      ("Failed to commit code: " ++ calledProcessErrorStr "git push -u origin main" 1,
       ["git init", "git add .", "git commit -m \"Initial commit\"",
        "git remote add origin https://gh.example/demo.git", "git branch -M main"] ++
       ["git push -u origin main"]))
    ∧ (GitOpsAgent.commit_code
        ⟨fun _ => Except.ok ⟨"https://gh.example/demo.git", "https://gh.example/demo"⟩,
         fun _ => Except.error "unused",
         fun _ => ⟨0, "", ""⟩⟩
        (some "demo") =
      ("Code committed to repository: " ++ "https://gh.example/demo",
       gitCommands "https://gh.example/demo.git")) := by
  refine ⟨?_, ?_, ?_, ?_, ?_, ?_, ?_⟩
  · exact C4_amended_sequences.1
      ⟨fun _ => ⟨1, "", "template not found"⟩, Except.ok (), Except.ok ()⟩
      "static-website-azure-go" "demo" rfl (by decide)
  · exact C4_amended_sequences.2.1
      ⟨fun _ => Except.ok (Json.obj [("clientId", Json.str "a"), ("clientSecret", Json.str "b"),
          ("tenantId", Json.str "c"), ("subscriptionId", Json.str "d")]),
       fun cmd => if cmd = "go mod tidy" then ⟨1, "", "missing go.sum"⟩ else ⟨0, "", ""⟩,
       fun _ => true⟩
      "creds" "tok" "demo"
      (Json.obj [("clientId", Json.str "a"), ("clientSecret", Json.str "b"),
          ("tenantId", Json.str "c"), ("subscriptionId", Json.str "d")])
      ["pulumi login"] "go mod tidy"
      ["pulumi stack select talkitdoit-org/demo/dev",
       "pulumi config set azure-native:location eastus", "pulumi up --yes"]
      rfl rfl (by decide) rfl rfl (by decide) (by decide)
  · exact C4_amended_sequences.2.2.1
      ⟨fun _ => Except.ok (Json.obj [("clientId", Json.str "a"), ("clientSecret", Json.str "b"),
          ("tenantId", Json.str "c"), ("subscriptionId", Json.str "d")]),
       fun _ => ⟨0, "out", ""⟩,
       fun _ => true⟩
      "creds" "tok" "demo"
      (Json.obj [("clientId", Json.str "a"), ("clientSecret", Json.str "b"),
          ("tenantId", Json.str "c"), ("subscriptionId", Json.str "d")])
      rfl rfl (by decide) rfl (by decide)
  · exact C4_amended_sequences.2.2.2.1
      ⟨fun _ => Except.ok (Json.obj [("clientId", Json.str "a"), ("clientSecret", Json.str "b"),
          ("tenantId", Json.str "c"), ("subscriptionId", Json.str "d")]),
       fun cmd => if cmd = "pulumi destroy --yes" then ⟨1, "", "stack locked"⟩ else ⟨0, "", ""⟩,
       fun _ => true⟩
      "creds" "tok" "demo"
      (Json.obj [("clientId", Json.str "a"), ("clientSecret", Json.str "b"),
          ("tenantId", Json.str "c"), ("subscriptionId", Json.str "d")])
      ["pulumi login", "pulumi stack select talkitdoit-org/demo/dev"] "pulumi destroy --yes" []
      rfl rfl rfl (by decide) (by decide)
  · exact C4_amended_sequences.2.2.2.2.1
      ⟨fun _ => Except.ok (Json.obj [("clientId", Json.str "a"), ("clientSecret", Json.str "b"),
          ("tenantId", Json.str "c"), ("subscriptionId", Json.str "d")]),
       fun _ => ⟨0, "", ""⟩,
       fun _ => true⟩
      "creds" "tok" "demo"
      (Json.obj [("clientId", Json.str "a"), ("clientSecret", Json.str "b"),
          ("tenantId", Json.str "c"), ("subscriptionId", Json.str "d")])
      rfl rfl (by decide)
  · exact C4_amended_sequences.2.2.2.2.2.1
      ⟨fun _ => Except.ok ⟨"https://gh.example/demo.git", "https://gh.example/demo"⟩,
       fun _ => Except.error "unused",
       fun cmd => if cmd = "git push -u origin main" then ⟨1, "", "auth failed"⟩ else ⟨0, "", ""⟩⟩
      (some "demo") ⟨"https://gh.example/demo.git", "https://gh.example/demo"⟩
      ["git init", "git add .", "git commit -m \"Initial commit\"",
       "git remote add origin https://gh.example/demo.git", "git branch -M main"]
      "git push -u origin main" []
      rfl rfl (by decide) (by decide)
  · exact C4_amended_sequences.2.2.2.2.2.2
      ⟨fun _ => Except.ok ⟨"https://gh.example/demo.git", "https://gh.example/demo"⟩,
       fun _ => Except.error "unused",
       fun _ => ⟨0, "", ""⟩⟩
      (some "demo") ⟨"https://gh.example/demo.git", "https://gh.example/demo"⟩
      rfl (by decide)

/-- Whether a decoded JSON value is an object (Python dict). -/
def Json.isObj : Json → Bool
  | .obj _ => true
  | _ => false

/-- The selection predicate of the analysis loop: the message's `role`
is `"assistant"` and its `kind` is `"response"`. -/
def isAssistantResponseMsg (m : Json) : Bool :=
  optJsonIsStr (jsonGet m "role") "assistant" && optJsonIsStr (jsonGet m "kind") "response"

/-- On a list of dict messages, the analysis loop returns the success
object built from the FIRST message satisfying the assistant/response
predicate, or the no-analysis error object when none does. -/
theorem analyzeLoop_eq_find (msgs : List Json) (hobj : ∀ x ∈ msgs, x.isObj = true) :
    analyzeLoop msgs = Except.ok
      (match msgs.find? isAssistantResponseMsg with
       | some msg => Json.obj [("status", Json.str "success"),
                               ("analysis", jsonGetD msg "content" (Json.str "No analysis provided"))]
       | none => Json.obj [("status", Json.str "error"),
                           ("message", Json.str "No analysis found in response")]) := by
  induction msgs with
  | nil => rfl
  | cons m rest ih =>
    have hm : m.isObj = true := hobj m (List.mem_cons_self m rest)
    have ih' := ih (fun x hx => hobj x (List.mem_cons_of_mem m hx))
    cases m with
    | obj kvs =>
      by_cases hrole : optJsonIsStr (jsonLookup kvs "role") "assistant" = true
      · by_cases hkind : optJsonIsStr (jsonLookup kvs "kind") "response" = true
        · have hpred : isAssistantResponseMsg (Json.obj kvs) = true := by
            simp [isAssistantResponseMsg, jsonGet, hrole, hkind]
          simp [analyzeLoop, pyGet, hrole, hkind, List.find?_cons_of_pos _ hpred]
        · have hpred : ¬isAssistantResponseMsg (Json.obj kvs) = true := by
            simp [isAssistantResponseMsg, jsonGet, hrole, hkind]
          simp [analyzeLoop, pyGet, hrole, hkind, ih',
            List.find?_cons_of_neg _ hpred]
      · have hpred : ¬isAssistantResponseMsg (Json.obj kvs) = true := by
          simp [isAssistantResponseMsg, jsonGet, hrole]
        simp [analyzeLoop, pyGet, hrole, ih',
          List.find?_cons_of_neg _ hpred]
    | null => simp [Json.isObj] at hm
    | bool b => simp [Json.isObj] at hm
    | num n => simp [Json.isObj] at hm
    | str s => simp [Json.isObj] at hm
    | arr xs => simp [Json.isObj] at hm

/-- C9: for a parsed analysis response whose `messages` field is a list
of dict messages (or absent, giving the empty list), the returned value
is the success object whose `analysis` is the `content` of the first
assistant/response message, or the no-analysis error object when no
such message exists. -/
theorem C9_first_assistant_response (kvs : List (String × Json)) (msgs : List Json)
    (hmsgs : jsonLookup kvs "messages" = some (Json.arr msgs) ∨
             (jsonLookup kvs "messages" = none ∧ msgs = []))
    (hobj : ∀ x ∈ msgs, x.isObj = true) :
    analyzeBody (Json.obj kvs) = Except.ok
      (match msgs.find? isAssistantResponseMsg with
       | some msg => Json.obj [("status", Json.str "success"),
                               ("analysis", jsonGetD msg "content" (Json.str "No analysis provided"))]
       | none => Json.obj [("status", Json.str "error"),
                           ("message", Json.str "No analysis found in response")]) := by
  rcases hmsgs with h | ⟨h, rfl⟩
  · simp only [analyzeBody, pyGet, h, Option.getD_some, pyIter]
    exact analyzeLoop_eq_find msgs hobj
  · simp only [analyzeBody, pyGet, h, Option.getD_none, pyIter]
    rfl

/-- Witness for C9 on a concrete two-message response: the second
message is the first assistant/response one and its content is
extracted. -/
theorem C9_witness :
    analyzeBody (Json.obj [("conversationId", Json.str "abc"),
      ("messages", Json.arr
        [Json.obj [("role", Json.str "user"), ("kind", Json.str "request"),
                   ("content", Json.str "Please analyze")],
         Json.obj [("role", Json.str "assistant"), ("kind", Json.str "response"),
                   ("content", Json.str "Looks good.")]])]) = Except.ok
      (match ([Json.obj [("role", Json.str "user"), ("kind", Json.str "request"),
                   ("content", Json.str "Please analyze")],
         Json.obj [("role", Json.str "assistant"), ("kind", Json.str "response"),
                   ("content", Json.str "Looks good.")]].find? isAssistantResponseMsg) with
       | some msg => Json.obj [("status", Json.str "success"),
                               ("analysis", jsonGetD msg "content" (Json.str "No analysis provided"))]
       | none => Json.obj [("status", Json.str "error"),
                           ("message", Json.str "No analysis found in response")]) :=
  C9_first_assistant_response
    [("conversationId", Json.str "abc"),
     ("messages", Json.arr
       [Json.obj [("role", Json.str "user"), ("kind", Json.str "request"),
                  ("content", Json.str "Please analyze")],
        Json.obj [("role", Json.str "assistant"), ("kind", Json.str "response"),
                  ("content", Json.str "Looks good.")]])]
    [Json.obj [("role", Json.str "user"), ("kind", Json.str "request"),
               ("content", Json.str "Please analyze")],
     Json.obj [("role", Json.str "assistant"), ("kind", Json.str "response"),
               ("content", Json.str "Looks good.")]]
    (Or.inl rfl)
    (by intro x hx
        simp only [List.mem_cons, List.not_mem_nil, or_false] at hx
        rcases hx with rfl | rfl <;> rfl)
